import Mathlib

set_option maxRecDepth 100000

/-!
Shallow embedding of the cluster orchestration logic of vFXT/cluster.py
(Avere SDK).  Pure fragments of the Python code are translated into
executable Lean functions; the stateful polling loops are modelled as step
functions over explicit state records driven by traces of observations of
the remote management channel.  Theorems at the end of the file settle the
specification claims against these definitions.
-/

namespace VFXT

/-! ## Cluster name validation (Cluster.valid_cluster_name) -/

/-- Character class of the first name character in the pattern: a lowercase
letter a-z. -/
def isNameStart (c : Char) : Bool := 'a' ≤ c && c ≤ 'z'

/-- Character class of interior name characters in the pattern: dash,
lowercase letter or digit. -/
def isNameMid (c : Char) : Bool :=
  c = '-' || ('a' ≤ c && c ≤ 'z') || ('0' ≤ c && c ≤ '9')

/-- Character class of the final name character in the pattern: lowercase
letter or digit. -/
def isNameEnd (c : Char) : Bool :=
  ('a' ≤ c && c ≤ 'z') || ('0' ≤ c && c ≤ '9')

/-- Whole-string match of the regular expression
[a-z]([-a-z0-9]*[a-z0-9])? used by valid_cluster_name: one lowercase
letter, optionally followed by interior characters ending in a letter or
digit. -/
def nameReFullMatch (s : List Char) : Bool :=
  match s with
  | [] => false
  | c :: rest =>
    isNameStart c &&
      (match rest.reverse with
       | [] => true
       | lastc :: mid => isNameEnd lastc && mid.all isNameMid)

/-- Python re.search of the anchored pattern: with the caret anchor the
match must start at position zero, and the dollar anchor matches at the end
of the string or just before one trailing newline, so the search succeeds
exactly when the whole string matches, or the string ends in a newline and
everything before that final newline matches. -/
def nameReSearch (s : List Char) : Bool :=
  nameReFullMatch s ||
    (match s.reverse with
     | [] => false
     | c :: rest => c = '\n' && nameReFullMatch rest.reverse)

/-- Cluster.valid_cluster_name from cluster.py: reject when the length is
outside 1..128, then test the anchored pattern with re.search. -/
def valid_cluster_name (s : List Char) : Bool :=
  let name_len := s.length
  if name_len < 1 || name_len > 128 then false
  else if nameReSearch s then true
  else false

/-! ## Address need computation in Cluster.add_nodes -/

/-- Additional cluster addresses computed in add_nodes: the signed need
(node_count + count) * cluster_ips_per_node minus the in-use cluster
address count, clamped at zero by the following guard line. -/
def need_cluster_calc (node_count count cluster_ips_per_node existing_cluster : Nat) : Int :=
  let need : Int := ((node_count : Int) + count) * cluster_ips_per_node - existing_cluster
  if need > 0 then need else 0

/-- Additional vserver addresses computed in add_nodes, with the vserver
count in place of the per-node cluster IP count, clamped at zero. -/
def need_vserver_calc (node_count count vserver_count existing_vserver : Nat) : Int :=
  let need : Int := ((node_count : Int) + count) * vserver_count - existing_vserver
  if need > 0 then need else 0

/-- Additional private addresses computed in add_nodes: the added node
count when the backend allocates private addresses, otherwise zero. -/
def need_private_calc (count : Nat) (allocate_private_addresses : Bool) : Nat :=
  if allocate_private_addresses then count else 0

/-! ## Bootstrap configuration text (Cluster.cluster_config) -/

/-- Inputs of cluster_config for a non-joining node: the object fields and
the three values discovered from the service backend, with the expiry
timestamp already rendered as a decimal string. -/
structure CfgInput where
  name : String
  admin_password : String
  expiry : String
  mgmt_ip : String
  mgmt_netmask : String
  router : String
  cluster_ip_start : String
  cluster_ip_end : String
  dns_servs : List String
  ntp_servs : List String
deriving DecidableEq

/-- Server lines appended for the dns and ntp sections: the loop over
indices 0..2 emits serverN= followed by the N-th configured server or the
empty string when fewer servers are configured. -/
def server_lines (servs : List String) : String :=
  "server1=" ++ servs.getD 0 "" ++ "\n" ++
    ( "server2=" ++ servs.getD 1 "" ++ "\n" ++
      ( "server3=" ++ servs.getD 2 "" ++ "\n"))

/-- Cluster.cluster_config with joining=False from cluster.py, translated
with the same incremental string construction: the basic, management
network and cluster network block is one format template, then the dns
section, the domain line and the ntp section are appended. -/
def cluster_config (i : CfgInput) : String :=
  let config :=
    "# cluster.cfg" ++
      "\n[basic]" ++
      "\ncluster name=" ++ i.name ++
      "\npassword=" ++ i.admin_password ++
      "\nexpiration=" ++ i.expiry ++
      "\n[management network]" ++
      "\naddress=" ++ i.mgmt_ip ++
      "\nnetmask=" ++ i.mgmt_netmask ++
      "\ndefault router=" ++ i.router ++
      "\n[cluster network]" ++
      "\nfirst address=" ++ i.cluster_ip_start ++
      "\nlast address=" ++ i.cluster_ip_end
  let config := config ++ "\n[dns]\n" ++ server_lines i.dns_servs ++ "domain=\n"
  let config := config ++ "\n[ntp]\n" ++ server_lines i.ntp_servs
  config

/-- Cluster.cluster_config with joining=True from cluster.py: only the
basic section with the join target address and the expiration. -/
def cluster_config_joining (join_addr expiry : String) : String :=
  "# cluster.cfg\n[basic]\njoin cluster=" ++ join_addr ++ "\nexpiration=" ++ expiry ++ "\n"

/-- Literal bootstrap configuration template of spec section 6, rendered
line by line exactly as printed there, with the empty string for absent
dns and ntp servers. -/
def spec_template (i : CfgInput) : String :=
  "# cluster.cfg\n" ++
    "[basic]\n" ++
    "cluster name=" ++ i.name ++ "\n" ++
    "password=" ++ i.admin_password ++ "\n" ++
    "expiration=" ++ i.expiry ++ "\n" ++
    "[management network]\n" ++
    "address=" ++ i.mgmt_ip ++ "\n" ++
    "netmask=" ++ i.mgmt_netmask ++ "\n" ++
    "default router=" ++ i.router ++ "\n" ++
    "[cluster network]\n" ++
    "first address=" ++ i.cluster_ip_start ++ "\n" ++
    "last address=" ++ i.cluster_ip_end ++ "\n" ++
    "[dns]\n" ++
    "server1=" ++ i.dns_servs.getD 0 "" ++ "\n" ++
    "server2=" ++ i.dns_servs.getD 1 "" ++ "\n" ++
    "server3=" ++ i.dns_servs.getD 2 "" ++ "\n" ++
    "domain=\n" ++
    "[ntp]\n" ++
    "server1=" ++ i.ntp_servs.getD 0 "" ++ "\n" ++
    "server2=" ++ i.ntp_servs.getD 1 "" ++ "\n" ++
    "server3=" ++ i.ntp_servs.getD 2 "" ++ "\n"

/-- Template of spec section 6 amended with the one difference the code
forces: an empty line separates the domain line from the ntp section
header. -/
def spec_template_amended (i : CfgInput) : String :=
  "# cluster.cfg\n" ++
    "[basic]\n" ++
    "cluster name=" ++ i.name ++ "\n" ++
    "password=" ++ i.admin_password ++ "\n" ++
    "expiration=" ++ i.expiry ++ "\n" ++
    "[management network]\n" ++
    "address=" ++ i.mgmt_ip ++ "\n" ++
    "netmask=" ++ i.mgmt_netmask ++ "\n" ++
    "default router=" ++ i.router ++ "\n" ++
    "[cluster network]\n" ++
    "first address=" ++ i.cluster_ip_start ++ "\n" ++
    "last address=" ++ i.cluster_ip_end ++ "\n" ++
    "[dns]\n" ++
    "server1=" ++ i.dns_servs.getD 0 "" ++ "\n" ++
    "server2=" ++ i.dns_servs.getD 1 "" ++ "\n" ++
    "server3=" ++ i.dns_servs.getD 2 "" ++ "\n" ++
    "domain=\n" ++
    "\n" ++
    "[ntp]\n" ++
    "server1=" ++ i.ntp_servs.getD 0 "" ++ "\n" ++
    "server2=" ++ i.ntp_servs.getD 1 "" ++ "\n" ++
    "server3=" ++ i.ntp_servs.getD 2 "" ++ "\n"

/-- Concrete configuration input used to exhibit the template mismatch. -/
def cfg_example : CfgInput :=
  ⟨ "mycluster", "adminpass", "1500000000", "10.0.0.5", "255.255.255.0",
    "10.0.0.1", "10.0.0.10", "10.0.0.19", ["8.8.8.8"], []⟩

/-! ## Health check polling (Cluster.wait_for_healthcheck) -/

/-- Acceptable maxCondition values for a requested state: the requested
state itself and green, with yellow additionally appended when the
requested state is red. -/
def acceptable_states (state : String) : List String :=
  let states := [state, "green"]
  if state = "red" then states ++ ["yellow"] else states

/-- Loop state of wait_for_healthcheck: the time the condition started
holding, the seconds it has been observed holding, and the remaining retry
budget (a Python int, so it may pass below zero). -/
structure HCState where
  start_time : Nat
  observed : Nat
  retries : Int
deriving DecidableEq

/-- One poll observation: the wall-clock second of the poll, the
maxCondition reported by cluster.maxActiveAlertSeverity (none models a
failed query or a response without that key), and the named conditions
with their severities that alert.conditions would report if queried at
this moment. -/
structure HCObs where
  now : Nat
  maxCondition : Option String
  conditions : List (String × String)
deriving DecidableEq

/-- Result of one iteration of the wait_for_healthcheck loop. -/
inductive HCResult where
  | success : HCResult
  | failure : List String → HCResult
  | next : HCState → HCResult
deriving DecidableEq

/-- Whether the poll counts as the condition holding: the reported
maxCondition key is present and its value is among the acceptable
states. -/
def hc_holds (state : String) (obs : HCObs) : Bool :=
  match obs.maxCondition with
  | some c => (acceptable_states state).contains c
  | none => false

/-- One iteration of the wait_for_healthcheck loop: on a holding poll the
observed time becomes the time elapsed since start_time and the loop exits
successfully once it reaches the duration; on a non-holding poll observed
resets to zero and start_time to the current time; then the retry counter
is decremented and on reaching zero the loop raises a status failure
naming the conditions whose severity differs from the requested state. -/
def hc_step (state : String) (duration : Nat) (s : HCState) (obs : HCObs) : HCResult :=
  let s2 :=
    if hc_holds state obs then { s with observed := obs.now - s.start_time }
    else { s with observed := 0, start_time := obs.now }
  if hc_holds state obs && decide (duration ≤ s2.observed) then HCResult.success
  else
    let retries := s2.retries - 1
    if retries = 0 then
      HCResult.failure ((obs.conditions.filter (fun c => c.2 ≠ state)).map (fun c => c.1))
    else HCResult.next { s2 with retries := retries }

/-- Outcome of running the wait_for_healthcheck loop over a finite trace
of poll observations; running means the modelled trace ended while the
loop would still be polling. -/
inductive HCOutcome where
  | success : HCOutcome
  | failure : List String → HCOutcome
  | running : HCState → HCOutcome
deriving DecidableEq

/-- Run of the wait_for_healthcheck loop over a trace of observations. -/
def hc_run (state : String) (duration : Nat) : HCState → List HCObs → HCOutcome
  | s, [] => HCOutcome.running s
  | s, obs :: rest =>
    match hc_step state duration s obs with
    | HCResult.success => HCOutcome.success
    | HCResult.failure codes => HCOutcome.failure codes
    | HCResult.next s2 => hc_run state duration s2 rest

/-- Initial loop state of wait_for_healthcheck: start_time is the current
time and nothing has been observed yet. -/
def hc_init (t0 : Nat) (retries : Int) : HCState :=
  ⟨t0, 0, retries⟩

/-- Observation trace for the durable-condition scenario: the condition
holds for two polls one second apart, drops for one poll, then holds
again; the first five polls of the scenario. -/
def hc_trace5 : List HCObs :=
  [⟨0, some "green", []⟩, ⟨1, some "green", []⟩, ⟨2, some "red", []⟩,
    ⟨3, some "green", []⟩, ⟨4, some "green", []⟩]

/-- The full six-poll scenario trace: the three holding polls after the
reset complete at the sixth poll. -/
def hc_trace6 : List HCObs :=
  hc_trace5 ++ [⟨5, some "green", []⟩]

/-! ## Waiting for nodes to join (Cluster.wait_for_nodes_to_join) -/

/-- Substring containment test modelling the Python in operator on
strings: the needle occurs somewhere in the hay. -/
def str_contains (hay needle : String) : Bool :=
  hay.data.tails.any (fun t => needle.data.isPrefixOf t)

/-- Loop state of wait_for_nodes_to_join: the reference time that the
elapsed duration is measured from, and the remaining retry budget. -/
structure JoinState where
  start_time : Nat
  retries : Nat
deriving DecidableEq

/-- One poll observation of the join wait: the wall-clock second, the node
count node.list reports (none models a query exception, which the code
replaces with a count of one), and the status strings of unconfigured
nodes at the addresses of our nodes (none models a query exception, which
skips the image-upgrade check). -/
structure JoinObs where
  now : Nat
  node_list : Option Nat
  unconf_statuses : Option (List String)
deriving DecidableEq

/-- Result of one iteration of the wait_for_nodes_to_join loop. -/
inductive JoinStepResult where
  | joined : JoinStepResult
  | timed_out : Int → JoinStepResult
  | next : JoinState → JoinStepResult
deriving DecidableEq

/-- Python int(retries * 1.5) for the nonnegative retry counter: the
product is exact in floating point and truncates to three halves rounded
down. -/
def py_int_3div2 (retries : Nat) : Nat := 3 * retries / 2

/-- Whether this poll finds an unconfigured node whose status mentions an
image upgrade, which makes the loop reset its reference time and skip the
retry accounting. -/
def join_image_wait (o : JoinObs) : Bool :=
  match o.unconf_statuses with
  | some sts => sts.any (fun st => str_contains st "image")
  | none => false

/-- One iteration of the wait_for_nodes_to_join loop: exit when the
reported node count matches the expected count; reset the reference time
and continue when nodes are upgrading their image; otherwise raise a
timeout when the retry counter has reached zero or the elapsed time
since the reference time exceeds int(retries * 1.5) for the current
counter, and otherwise decrement the counter and continue. -/
def join_step (expected : Nat) (s : JoinState) (o : JoinObs) : JoinStepResult :=
  let found := o.node_list.getD 1
  if expected = found then JoinStepResult.joined
  else if join_image_wait o then JoinStepResult.next ⟨o.now, s.retries⟩
  else
    let duration := o.now - s.start_time
    let taking_too_long := decide (py_int_3div2 s.retries < duration)
    if s.retries = 0 || taking_too_long then
      JoinStepResult.timed_out ((expected : Int) - found)
    else JoinStepResult.next ⟨s.start_time, s.retries - 1⟩

/-! ## Parallel fan-out (Cluster.parallel_call) -/

/-- Failure entry a worker thread puts on the shared queue when its
invocation raises: a description naming the method and the instance,
paired with the error. -/
def fail_entry (method instance_id err : String) : String × String :=
  ( "Failed to " ++ method ++ " instance " ++ instance_id, err)

/-- Run of all worker threads of parallel_call, modelled in node order.
The outcome function tells whether invoking the named method on an
instance raises (some error text) or completes (none).  The first
component records every instance that was invoked and the second the
failure entries collected on the queue; a raising worker never prevents
the remaining workers from being invoked. -/
def run_workers (method : String) (outcome : String → Option String) :
    List String → List String × List (String × String)
  | [] => ([], [])
  | id :: rest =>
    let tail := run_workers method outcome rest
    match outcome id with
    | none => (id :: tail.1, tail.2)
    | some e => (id :: tail.1, fail_entry method id e :: tail.2)

/-- Cluster.parallel_call from cluster.py: spawn one worker per instance,
join them all, then raise one aggregate service failure carrying the
collected entries when any worker failed, and return normally
otherwise. -/
def parallel_call (method : String) (instances : List String)
    (outcome : String → Option String) : Except (List (String × String)) Unit :=
  let failed := (run_workers method outcome instances).2
  if failed.isEmpty then Except.ok () else Except.error failed

/-- Four-node example outcome: the second and the fourth node fail. -/
def outcome4 : String → Option String := fun id =>
  if id = "n2" then some "boom2" else if id = "n4" then some "boom4" else none

/-! ## Activity polling in Cluster.add_nodes -/

/-- Response dictionary of cluster.getActivity, restricted to the two keys
the polling loops inspect; a component is none when the key is absent. -/
structure ActivityResponse where
  state : Option String
  status : Option String
deriving DecidableEq

/-- What one iteration of an activity polling loop does. -/
inductive PollStep where
  | finished : PollStep
  | raised : String → PollStep
  | keep_polling : PollStep
deriving DecidableEq

/-- One iteration of the polling loop that follows cluster.addClusterIPs
in add_nodes: break when the state key holds success, raise a
configuration exception with a fixed message when the status key holds
failure, and otherwise sleep and poll again. -/
def addClusterIPs_poll_step (r : ActivityResponse) : PollStep :=
  if r.state = some "success" then PollStep.finished
  else if r.status = some "failure" then
    PollStep.raised "Failed to extend cluster addresses"
  else PollStep.keep_polling

/-- Run of the polling loop over a finite trace of responses; none means
the modelled trace ended while the loop was still polling. -/
def poll_loop (responses : List ActivityResponse) : Option PollStep :=
  match responses with
  | [] => none
  | r :: rest =>
    match addClusterIPs_poll_step r with
    | PollStep.keep_polling => poll_loop rest
    | s => some s

/-- The whole wait for the cluster address extension: a call returning the
token success is treated as already complete, otherwise getActivity is
polled. -/
def addClusterIPs_wait (activity : String) (responses : List ActivityResponse) :
    Option PollStep :=
  if activity = "success" then some PollStep.finished
  else poll_loop responses

/-- Modelled from the spec: one iteration of activity polling as section
4.2 states it, polling until the state field equals success (normal
return) or failure (raise carrying the status text of the activity). -/
def spec_activity_poll_step (r : ActivityResponse) : PollStep :=
  if r.state = some "success" then PollStep.finished
  else if r.state = some "failure" then PollStep.raised (r.status.getD "")
  else PollStep.keep_polling

/-! ## Address rollback in the add_nodes failure handler -/

/-- One address range record as the management channel reports it: its
remote name and its first and last address. -/
structure IPRange where
  name : String
  firstIP : String
  lastIP : String
deriving DecidableEq

/-- Remote address state relevant to the rollback: the cluster ranges of
cluster.get and the client-facing ranges of each vserver. -/
structure RemoteState where
  clusterIPs : List IPRange
  vservers : List (String × List IPRange)
deriving DecidableEq

/-- Body of one applied extension recorded in the added list of
add_nodes: the first and last address of the range; the netmask also
recorded there plays no role in the undo matching. -/
structure RangeBody where
  firstIP : String
  lastIP : String
deriving DecidableEq

/-- One entry of the added list: a cluster extension or a vserver
extension. -/
inductive AppliedExt where
  | cluster : RangeBody → AppliedExt
  | vserver : RangeBody → AppliedExt
deriving DecidableEq

/-- A reversal call issued during the undo: removeClusterIPs with the
remote range name, or removeClientIPs with the vserver and range names. -/
inductive RemovalOp where
  | removeClusterIPs : String → RemovalOp
  | removeClientIPs : String → String → RemovalOp
deriving DecidableEq

/-- Whether a remote range matches an added body, compared on first and
last address exactly as the undo loop does. -/
def body_matches (b : RangeBody) (r : IPRange) : Bool :=
  r.firstIP = b.firstIP && r.lastIP = b.lastIP

/-- Undo of one added entry: every remote range whose first and last
address match the recorded body has its removal call issued and its
completion polled; the removal_ok function tells whether that polling
reached success, and a removal whose activity reports failure is logged,
leaves the range in place and never escalates, the loop continuing either
way.  The issued calls are returned beside the updated remote state. -/
def undo_one (removal_ok : RemovalOp → Bool) (st : RemoteState) (a : AppliedExt) :
    RemoteState × List RemovalOp :=
  match a with
  | AppliedExt.vserver b =>
    let ops := st.vservers.flatMap (fun vs =>
      (vs.2.filter (fun r => body_matches b r)).map
        (fun r => RemovalOp.removeClientIPs vs.1 r.name))
    let vservers := st.vservers.map (fun vs =>
      (vs.1, vs.2.filter (fun r =>
        !(body_matches b r && removal_ok (RemovalOp.removeClientIPs vs.1 r.name)))))
    (⟨st.clusterIPs, vservers⟩, ops)
  | AppliedExt.cluster b =>
    let ops := (st.clusterIPs.filter (fun r => body_matches b r)).map
      (fun r => RemovalOp.removeClusterIPs r.name)
    let clusterIPs := st.clusterIPs.filter (fun r =>
      !(body_matches b r && removal_ok (RemovalOp.removeClusterIPs r.name)))
    (⟨clusterIPs, st.vservers⟩, ops)

/-- Undo of the whole added list in the order the code iterates it, which
is the order of application (for a in added), not the reverse. -/
def undo_added (removal_ok : RemovalOp → Bool) (st : RemoteState) :
    List AppliedExt → RemoteState × List RemovalOp
  | [] => (st, [])
  | a :: rest =>
    let head := undo_one removal_ok st a
    let tail := undo_added removal_ok head.1 rest
    (tail.1, head.2 ++ tail.2)

/-- Inputs of the add_nodes failure handler that decide whether the
address rollback runs: the cleanup suppression option, the requested node
count, the never-joined count, the recorded added list and the remote
address state at failure time. -/
structure FailureCtx where
  skip_cleanup : Bool
  count : Nat
  unjoined : Nat
  added : List AppliedExt
  st : RemoteState
deriving DecidableEq

/-- Address rollback portion of the add_nodes failure handler: skipped
when cleanup is suppressed, run only when the never-joined count equals
the requested count. -/
def rollback_addresses (removal_ok : RemovalOp → Bool) (ctx : FailureCtx) :
    RemoteState × List RemovalOp :=
  if ctx.skip_cleanup then (ctx.st, [])
  else if ctx.unjoined = ctx.count then undo_added removal_ok ctx.st ctx.added
  else (ctx.st, [])

/-- Survivor predicate of a cluster range under a fully successful undo:
no added cluster body matches it. -/
def survives_cluster (added : List AppliedExt) (r : IPRange) : Bool :=
  added.all (fun a =>
    match a with
    | AppliedExt.cluster b => !(body_matches b r)
    | AppliedExt.vserver _ => true)

/-- Survivor predicate of a vserver range under a fully successful undo:
no added vserver body matches it. -/
def survives_vserver (added : List AppliedExt) (r : IPRange) : Bool :=
  added.all (fun a =>
    match a with
    | AppliedExt.vserver b => !(body_matches b r)
    | AppliedExt.cluster _ => true)

/-- Remote address state before the failed add_nodes call of the
example. -/
def pre_state : RemoteState :=
  ⟨[⟨ "cluster1", "10.0.0.4", "10.0.0.7"⟩],
    [( "vs1", [⟨ "vs1_range", "10.0.0.50", "10.0.0.53"⟩])]⟩

/-- Remote address state at rollback time of the example: the pre-call
state extended by the cluster range and the vserver range the failed call
applied. -/
def ext_state : RemoteState :=
  ⟨[⟨ "cluster1", "10.0.0.4", "10.0.0.7"⟩, ⟨ "cluster2", "10.0.0.8", "10.0.0.10"⟩],
    [( "vs1",
        [⟨ "vs1_range", "10.0.0.50", "10.0.0.53"⟩,
          ⟨ "vs1_range2", "10.0.0.54", "10.0.0.56"⟩])]⟩

/-- The added list of the failed example call, in application order: the
cluster extension was applied first, then the vserver extension. -/
def added_example : List AppliedExt :=
  [AppliedExt.cluster ⟨ "10.0.0.8", "10.0.0.10"⟩,
    AppliedExt.vserver ⟨ "10.0.0.54", "10.0.0.56"⟩]

/-- Failure context of the example: cleanup not suppressed and neither of
the two requested nodes ever joined. -/
def failure_ctx_example : FailureCtx :=
  ⟨false, 2, 2, added_example, ext_state⟩

/-! ## Exception wrapping in Cluster.create and Cluster.add_nodes -/

/-- Exception values as the error-propagation model distinguishes them:
the taxonomy of spec section 7 plus the keyboard interrupt and a generic
kind. -/
inductive PyErr where
  | keyboard_interrupt : PyErr
  | config_error : String → PyErr
  | status_error : String → PyErr
  | service_error : String → PyErr
  | create_failure : PyErr → PyErr
  | other : String → PyErr
deriving DecidableEq

/-- Whether a surfaced exception is a create failure wrapper. -/
def is_create_failure : Option PyErr → Bool
  | some (PyErr.create_failure _) => true
  | _ => false

/-- Outcomes of the phases of Cluster.create and of the calls its
exception handlers make: none means the phase completed. create_cluster
distinguishes a keyboard interrupt (the only exception its handler
catches) from any other error, which propagates with no handler at all;
destroy_err is an exception raised by the rollback destroy call itself. -/
structure CreateOutcomes where
  create_cluster : Option PyErr
  service_checks : Option PyErr
  nodes_join : Option PyErr
  finalize : Option PyErr
  destroy_err : Option PyErr
  skip_cleanup : Bool
  skip_configuration : Bool
deriving DecidableEq

/-- Exception surfaced by Cluster.create, following the handler structure
of the code: a keyboard interrupt during provisioning triggers destroy
and is re-raised bare; any other provisioning error propagates with no
cleanup; service-check and join-wait failures trigger destroy (or
telemetry when cleanup is suppressed) and are re-raised bare; only
failures of the final healthcheck, join-disable, naming and HA block are
wrapped as a create failure after destroy or telemetry; an exception
raised by destroy inside a handler replaces the original error. -/
def create_surfaced (o : CreateOutcomes) : Option PyErr :=
  match o.create_cluster with
  | some PyErr.keyboard_interrupt =>
    if o.skip_cleanup then some PyErr.keyboard_interrupt
    else
      match o.destroy_err with
      | some de => some de
      | none => some PyErr.keyboard_interrupt
  | some e => some e
  | none =>
    if o.skip_configuration then none
    else
      match o.service_checks with
      | some e =>
        if o.skip_cleanup then some e
        else
          match o.destroy_err with
          | some de => some de
          | none => some e
      | none =>
        match o.nodes_join with
        | some e =>
          if o.skip_cleanup then some e
          else
            match o.destroy_err with
            | some de => some de
            | none => some e
        | none =>
          match o.finalize with
          | some e =>
            if o.skip_cleanup then some (PyErr.create_failure e)
            else
              match o.destroy_err with
              | some de => some de
              | none => some (PyErr.create_failure e)
          | none => none

/-- Outcomes of the guarded body of Cluster.add_nodes and of the calls
its single exception handler makes: body_err is an exception from the
provision, service-check, join-wait or finalize steps; the parallel
destroy of unjoined nodes has its own try so its error is only logged;
the final allow_node_join(False) call of the handler is not guarded. -/
structure AddNodesOutcomes where
  body_err : Option PyErr
  skip_cleanup : Bool
  destroy_unjoined_err : Option PyErr
  allow_join_err : Option PyErr
deriving DecidableEq

/-- Exception surfaced by Cluster.add_nodes: the body error is wrapped as
a create failure whether cleanup ran or was suppressed; a destroy failure
during rollback is caught and logged; an exception from the final
allow_node_join call of the handler would replace the original error. -/
def add_nodes_surfaced (o : AddNodesOutcomes) : Option PyErr :=
  match o.body_err with
  | none => none
  | some e =>
    if o.skip_cleanup then some (PyErr.create_failure e)
    else
      match o.allow_join_err with
      | some ae => some ae
      | none => some (PyErr.create_failure e)

end VFXT

namespace VFXT

/-! ## Theorems -/

/-- Helper: the anchored search characterised through getLast? and
dropLast. -/
theorem nameReSearch_eq (s : List Char) :
    nameReSearch s =
      (nameReFullMatch s ||
        (decide (s.getLast? = some '\n') && nameReFullMatch s.dropLast)) := by
  unfold nameReSearch
  cases h : s.reverse with
  | nil =>
    have hs : s = [] := by
      have := congrArg List.reverse h
      simpa using this
    subst hs
    simp
  | cons c rest =>
    have hs : s = rest.reverse ++ [c] := by
      have := congrArg List.reverse h
      simpa using this
    subst hs
    by_cases hc : c = '\n' <;>
      simp [List.getLast?_concat, List.dropLast_concat, hc]

/-- C9 counterexample: the two-character string of a lowercase letter
followed by a newline is accepted by valid_cluster_name (Python re.search
lets the dollar anchor match before one trailing newline) although it does
not match the regular expression, and its length is within 1..128, so the
claimed equivalence fails on this input. -/
theorem valid_cluster_name_newline_counterexample :
    valid_cluster_name ['a', '\n'] = true ∧
    nameReFullMatch ['a', '\n'] = false ∧
    1 ≤ (['a', '\n'] : List Char).length ∧ (['a', '\n'] : List Char).length ≤ 128 := by
  decide

/-- C9 (amended): valid_cluster_name accepts exactly the strings of length
1..128 that either fully match the pattern [a-z]([-a-z0-9]*[a-z0-9])? or
consist of such a match followed by one trailing newline, the latter
because the dollar anchor of Python re.search also matches just before a
final newline; the spec examples behave as stated. -/
theorem valid_cluster_name_spec :
    (∀ s : List Char,
        valid_cluster_name s = true ↔
          (1 ≤ s.length ∧ s.length ≤ 128 ∧
            (nameReFullMatch s = true ∨
              (s.getLast? = some '\n' ∧ nameReFullMatch s.dropLast = true)))) ∧
    valid_cluster_name ['a'] = true ∧
    valid_cluster_name ['A'] = false ∧
    valid_cluster_name ['a', '-', '1'] = true ∧
    valid_cluster_name [] = false := by
  refine ⟨?_, by decide, by decide, by decide, by decide⟩
  intro s
  unfold valid_cluster_name
  rw [nameReSearch_eq]
  by_cases h1 : s.length < 1
  · simp [h1]
  · by_cases h2 : s.length > 128
    · simp [h1, h2]
    · simp [h1, h2]
      constructor
      · intro h
        exact ⟨by omega, by omega, h⟩
      · rintro ⟨-, -, h⟩
        exact h

/-- Witness for the amended C9 theorem at a concrete name. -/
theorem valid_cluster_name_spec_witness :
    valid_cluster_name ['b', '2'] = true :=
  (valid_cluster_name_spec.1 ['b', '2']).2 ⟨by decide, by decide, Or.inl (by decide)⟩

/-- C8: the additional cluster, vserver and private address counts
computed in add_nodes are the clamped differences stated by the spec, and
the concrete instance with three current nodes, two added nodes, two
cluster IPs per node and four in-use cluster addresses needs six more
cluster addresses. -/
theorem add_nodes_address_math :
    (∀ n k c u : Nat, need_cluster_calc n k c u = max 0 (((n : Int) + k) * c - u)) ∧
    (∀ n k v u : Nat, need_vserver_calc n k v u = max 0 (((n : Int) + k) * v - u)) ∧
    (∀ k : Nat, need_private_calc k true = k ∧ need_private_calc k false = 0) ∧
    need_cluster_calc 3 2 2 4 = 6 := by
  refine ⟨?_, ?_, fun k => ⟨rfl, rfl⟩, by decide⟩
  · intro n k c u
    unfold need_cluster_calc
    rcases le_or_lt (((n : Int) + k) * c - u) 0 with h | h
    · simp [not_lt.mpr h, max_eq_left h]
    · simp [h, max_eq_right (le_of_lt h)]
  · intro n k v u
    unfold need_vserver_calc
    rcases le_or_lt (((n : Int) + k) * v - u) 0 with h | h
    · simp [not_lt.mpr h, max_eq_left h]
    · simp [h, max_eq_right (le_of_lt h)]

/-- Witness for the C8 theorem at a concrete instance. -/
theorem add_nodes_address_math_witness :
    need_cluster_calc 4 1 2 6 = max 0 (((4 : Int) + 1) * 2 - 6) :=
  add_nodes_address_math.1 4 1 2 6

/-- C7 counterexample: on a concrete input the generated configuration is
not byte-identical to the literal template of spec section 6, because the
code appends the ntp section header with a leading newline after the
domain line already ends in one, producing an empty line the template does
not contain. -/
theorem cluster_config_template_counterexample :
    cluster_config cfg_example ≠ spec_template cfg_example := by
  decide

/-- C7 (amended): the generated configuration is byte-identical to the
template of spec section 6 amended with one empty line between the domain
line and the ntp section header, including trailing empty dns and ntp
entries, and the joining variant emits only the basic section with the
join target and expiration. -/
theorem cluster_config_matches_template :
    (∀ i : CfgInput, cluster_config i = spec_template_amended i) ∧
    (∀ a e : String, cluster_config_joining a e =
      "# cluster.cfg\n" ++ "[basic]\n" ++ "join cluster=" ++ a ++ "\n" ++
        "expiration=" ++ e ++ "\n") := by
  constructor
  · intro i
    apply String.ext
    simp [cluster_config, spec_template_amended, server_lines, String.data_append]
  · intro a e
    apply String.ext
    simp [cluster_config_joining, String.data_append]

/-- Witness for the amended C7 theorem at the concrete example input. -/
theorem cluster_config_matches_template_witness :
    cluster_config cfg_example = spec_template_amended cfg_example :=
  cluster_config_matches_template.1 cfg_example

/-- C2: wait_for_healthcheck succeeds only when the elapsed time since the
most recent non-acceptable poll reaches the required duration; a
non-holding poll resets the observed counter to zero and the hold start
time to now; with duration three, the scenario of two holding polls, one
non-holding poll and three more holding polls does not succeed within the
first five polls and succeeds at the sixth; and on retry exhaustion the
loop raises a status failure naming the conditions whose severity does not
match the requested state. -/
theorem wait_for_healthcheck_durable :
    (∀ (state : String) (duration : Nat) (s : HCState) (obs : HCObs),
        hc_step state duration s obs = HCResult.success →
        hc_holds state obs = true ∧ duration ≤ obs.now - s.start_time) ∧
    (∀ (state : String) (duration : Nat) (s : HCState) (obs : HCObs),
        hc_holds state obs = false → s.retries - 1 ≠ 0 →
        hc_step state duration s obs = HCResult.next ⟨obs.now, 0, s.retries - 1⟩) ∧
    (∀ (state : String) (duration : Nat) (s : HCState) (obs : HCObs),
        hc_holds state obs = false → s.retries = 1 →
        hc_step state duration s obs =
          HCResult.failure
            ((obs.conditions.filter (fun c => c.2 ≠ state)).map (fun c => c.1))) ∧
    hc_run "green" 3 (hc_init 0 100) hc_trace5 = HCOutcome.running ⟨2, 2, 95⟩ ∧
    hc_run "green" 3 (hc_init 0 100) hc_trace6 = HCOutcome.success := by
  refine ⟨?_, ?_, ?_, by decide, by decide⟩
  · intro state duration s obs h
    unfold hc_step at h
    by_cases hh : hc_holds state obs
    · by_cases hd : duration ≤ obs.now - s.start_time
      · exact ⟨hh, hd⟩
      · simp [hh, hd] at h
        split at h <;> simp at h
    · simp [hh] at h
      split at h <;> simp at h
  · intro state duration s obs hh hr
    unfold hc_step
    simp [hh, hr]
  · intro state duration s obs hh hr
    unfold hc_step
    simp [hh, hr]

/-- Witness for the C2 theorem: a non-holding poll resets the state. -/
theorem wait_for_healthcheck_durable_witness :
    hc_step "green" 3 ⟨0, 1, 50⟩ ⟨7, some "red", []⟩ = HCResult.next ⟨7, 0, 49⟩ :=
  wait_for_healthcheck_durable.2.1 "green" 3 ⟨0, 1, 50⟩ ⟨7, some "red", []⟩
    (by decide) (by decide)

/-- C10: green is acceptable for any requested state and yellow is
additionally acceptable when red is requested, so a poll holds whenever
the reported condition is at least as good as the requested one, and
requesting yellow on a continuously green cluster or red on a
continuously yellow cluster succeeds. -/
theorem healthcheck_accepts_better :
    (∀ state : String, (acceptable_states state).contains "green" = true) ∧
    (acceptable_states "red").contains "yellow" = true ∧
    (∀ (state : String) (duration : Nat) (s : HCState) (obs : HCObs),
        hc_holds state obs = true → duration + s.start_time ≤ obs.now →
        hc_step state duration s obs = HCResult.success) ∧
    hc_run "yellow" 2 (hc_init 0 10)
      [⟨0, some "green", []⟩, ⟨1, some "green", []⟩, ⟨2, some "green", []⟩] =
      HCOutcome.success ∧
    hc_run "red" 2 (hc_init 0 10)
      [⟨0, some "yellow", []⟩, ⟨1, some "yellow", []⟩, ⟨2, some "yellow", []⟩] =
      HCOutcome.success := by
  refine ⟨?_, by decide, ?_, by decide, by decide⟩
  · intro state
    unfold acceptable_states
    split <;> simp
  · intro state duration s obs hh hd
    unfold hc_step
    have hdur : duration ≤ obs.now - s.start_time := by omega
    simp [hh, hdur]

/-- Witness for the C10 theorem: requesting red succeeds on a yellow
report once the duration has elapsed. -/
theorem healthcheck_accepts_better_witness :
    hc_step "red" 1 ⟨0, 0, 30⟩ ⟨5, some "yellow", []⟩ = HCResult.success :=
  healthcheck_accepts_better.2.2.1 "red" 1 ⟨0, 0, 30⟩ ⟨5, some "yellow", []⟩
    (by decide) (by decide)

/-- C3: along the join wait the retry counter never increases, and at any
iteration that still sees a node-count mismatch and no image upgrade, an
elapsed time exceeding int(r * 1.5) for the initial budget r forces the
timeout regardless of the remaining retry count, because the threshold of
the check shrinks with the current counter. -/
theorem wait_for_nodes_wall_clock :
    (∀ (expected : Nat) (s : JoinState) (o : JoinObs) (s2 : JoinState),
        join_step expected s o = JoinStepResult.next s2 → s2.retries ≤ s.retries) ∧
    (∀ (r expected : Nat) (s : JoinState) (o : JoinObs),
        s.retries ≤ r →
        o.node_list.getD 1 ≠ expected →
        join_image_wait o = false →
        py_int_3div2 r < o.now - s.start_time →
        join_step expected s o =
          JoinStepResult.timed_out ((expected : Int) - o.node_list.getD 1)) := by
  constructor
  · intro expected s o s2 h
    by_cases h1 : expected = o.node_list.getD 1
    · simp [join_step, h1] at h
    · by_cases h2 : join_image_wait o = true
      · simp [join_step, h1, h2] at h
        subst h
        simp
      · by_cases h3 :
          (decide (s.retries = 0) ||
            decide (py_int_3div2 s.retries < o.now - s.start_time)) = true
        · simp [join_step, h1, h2, h3] at h
        · simp [join_step, h1, h2, h3] at h
          subst h
          simp
  · intro r expected s o hr hfound himg hdur
    have hmono : py_int_3div2 s.retries ≤ py_int_3div2 r := by
      unfold py_int_3div2
      exact Nat.div_le_div_right (Nat.mul_le_mul_left 3 hr)
    have htl : py_int_3div2 s.retries < o.now - s.start_time :=
      lt_of_le_of_lt hmono hdur
    have h1 : expected ≠ o.node_list.getD 1 := fun hh => hfound hh.symm
    simp [join_step, h1, himg, htl]

/-- Witness for the C3 theorem: with a budget of six hundred retries, an
elapsed time of 901 seconds aborts the wait although 595 retries
remain. -/
theorem wait_for_nodes_wall_clock_witness :
    (595 ≤ 600 ∧ py_int_3div2 600 < 901 - 0) ∧
    join_step 3 ⟨0, 595⟩ ⟨901, some 2, some []⟩ = JoinStepResult.timed_out 1 := by
  refine ⟨⟨by decide, by decide⟩, ?_⟩
  have h := wait_for_nodes_wall_clock.2 600 3 ⟨0, 595⟩ ⟨901, some 2, some []⟩
    (by decide) (by decide) (by decide) (by decide)
  simpa using h

/-- C4: every instance is invoked regardless of the other instances
failing, the collected failures are exactly the description and error
pairs of the failing instances in node order, the call returns normally
exactly when no instance failed, and across four nodes with the second
and fourth failing one aggregate error with exactly those two entries is
raised while the first and third were still invoked. -/
theorem parallel_call_aggregates :
    (∀ (method : String) (outcome : String → Option String) (instances : List String),
        (run_workers method outcome instances).1 = instances) ∧
    (∀ (method : String) (outcome : String → Option String) (instances : List String),
        (run_workers method outcome instances).2 =
          instances.filterMap
            (fun id => (outcome id).map (fun e => fail_entry method id e))) ∧
    (∀ (method : String) (outcome : String → Option String) (instances : List String),
        parallel_call method instances outcome = Except.ok () ↔
          ∀ id ∈ instances, outcome id = none) ∧
    parallel_call "destroy" ["n1", "n2", "n3", "n4"] outcome4 =
      Except.error
        [fail_entry "destroy" "n2" "boom2", fail_entry "destroy" "n4" "boom4"] ∧
    (run_workers "destroy" outcome4 ["n1", "n2", "n3", "n4"]).1 =
      ["n1", "n2", "n3", "n4"] := by
  have h2 : ∀ (method : String) (outcome : String → Option String)
      (instances : List String),
      (run_workers method outcome instances).2 =
        instances.filterMap
          (fun id => (outcome id).map (fun e => fail_entry method id e)) := by
    intro method outcome instances
    induction instances with
    | nil => rfl
    | cons id rest ih =>
      unfold run_workers
      cases h : outcome id <;> simp [h, ih, List.filterMap_cons]
  refine ⟨?_, h2, ?_, by rfl, by rfl⟩
  · intro method outcome instances
    induction instances with
    | nil => rfl
    | cons id rest ih =>
      unfold run_workers
      cases h : outcome id <;> simp [ih]
  · intro method outcome instances
    unfold parallel_call
    rw [h2]
    constructor
    · intro h id hid
      by_cases he :
          (instances.filterMap
            (fun id => (outcome id).map (fun e => fail_entry method id e))).isEmpty
      · rw [List.isEmpty_iff] at he
        have := List.filterMap_eq_nil_iff.mp he id hid
        simpa using this
      · simp [he] at h
    · intro hall
      have he : instances.filterMap
          (fun id => (outcome id).map (fun e => fail_entry method id e)) = [] :=
        List.filterMap_eq_nil_iff.mpr (fun id hid => by simp [hall id hid])
      simp [he]

/-- Witness for the C4 theorem: both instances of a two-node list are
invoked. -/
theorem parallel_call_aggregates_witness :
    (run_workers "stop" outcome4 ["a", "b"]).1 = ["a", "b"] :=
  parallel_call_aggregates.1 "stop" outcome4 ["a", "b"]

/-- C5 counterexample: on a response whose state field is failure while
its status text still reads running, the polling loop in add_nodes keeps
polling instead of raising with the status text as the claim states,
because the code tests the status key, not the state key, for failure. -/
theorem activity_poll_state_counterexample :
    addClusterIPs_poll_step ⟨some "failure", some "running"⟩ =
      PollStep.keep_polling ∧
    spec_activity_poll_step ⟨some "failure", some "running"⟩ =
      PollStep.raised "running" ∧
    PollStep.keep_polling ≠ PollStep.raised "running" := by
  decide

/-- C5 (amended): a management call returning the token success is treated
as already complete; otherwise getActivity is polled, sleeping between
attempts, until the state field of the response equals success (normal
return) or its status field equals failure, in which case a configuration
exception carrying a fixed message naming the operation, not the status
text of the activity, is raised. -/
theorem activity_poll_amended :
    (∀ rs, addClusterIPs_wait "success" rs = some PollStep.finished) ∧
    (∀ (activity : String) rs, activity ≠ "success" →
        addClusterIPs_wait activity rs = poll_loop rs) ∧
    (∀ r : ActivityResponse,
        addClusterIPs_poll_step r = PollStep.finished ↔ r.state = some "success") ∧
    (∀ r : ActivityResponse, r.state ≠ some "success" → r.status = some "failure" →
        addClusterIPs_poll_step r =
          PollStep.raised "Failed to extend cluster addresses") ∧
    (∀ r : ActivityResponse, r.state ≠ some "success" → r.status ≠ some "failure" →
        addClusterIPs_poll_step r = PollStep.keep_polling) := by
  refine ⟨fun rs => rfl, ?_, ?_, ?_, ?_⟩
  · intro activity rs h
    simp [addClusterIPs_wait, h]
  · intro r
    unfold addClusterIPs_poll_step
    by_cases h : r.state = some "success"
    · simp [h]
    · simp [h]
      split <;> simp
  · intro r h1 h2
    simp [addClusterIPs_poll_step, h1, h2]
  · intro r h1 h2
    simp [addClusterIPs_poll_step, h1, h2]

/-- Witness for the amended C5 theorem: a status of failure raises the
fixed message even though the state field does not read failure. -/
theorem activity_poll_amended_witness :
    addClusterIPs_poll_step ⟨some "running", some "failure"⟩ =
      PollStep.raised "Failed to extend cluster addresses" :=
  activity_poll_amended.2.2.2.1 ⟨some "running", some "failure"⟩
    (by decide) (by decide)

/-- Helper: unfolding of the undo over a cons cell of the added list. -/
theorem undo_added_cons (ok : RemovalOp → Bool) (st : RemoteState)
    (a : AppliedExt) (rest : List AppliedExt) :
    undo_added ok st (a :: rest) =
      ((undo_added ok (undo_one ok st a).1 rest).1,
        (undo_one ok st a).2 ++ (undo_added ok (undo_one ok st a).1 rest).2) := rfl

/-- Helper: a reversal whose polling reports failure leaves the remote
state unchanged. -/
theorem undo_one_fail_state (st : RemoteState) (a : AppliedExt) :
    (undo_one (fun _ => false) st a).1 = st := by
  cases a with
  | cluster b => simp [undo_one]
  | vserver b => simp [undo_one]

/-- Helper: survivor predicate of cluster ranges on a cluster cons
cell. -/
theorem survives_cluster_cons_cluster (b : RangeBody) (rest : List AppliedExt)
    (r : IPRange) :
    survives_cluster (AppliedExt.cluster b :: rest) r =
      (!(body_matches b r) && survives_cluster rest r) := by
  simp [survives_cluster]

/-- Helper: a vserver entry does not constrain cluster range survival. -/
theorem survives_cluster_cons_vserver (b : RangeBody) (rest : List AppliedExt)
    (r : IPRange) :
    survives_cluster (AppliedExt.vserver b :: rest) r = survives_cluster rest r := by
  simp [survives_cluster]

/-- Helper: survivor predicate of vserver ranges on a vserver cons
cell. -/
theorem survives_vserver_cons_vserver (b : RangeBody) (rest : List AppliedExt)
    (r : IPRange) :
    survives_vserver (AppliedExt.vserver b :: rest) r =
      (!(body_matches b r) && survives_vserver rest r) := by
  simp [survives_vserver]

/-- Helper: a cluster entry does not constrain vserver range survival. -/
theorem survives_vserver_cons_cluster (b : RangeBody) (rest : List AppliedExt)
    (r : IPRange) :
    survives_vserver (AppliedExt.cluster b :: rest) r = survives_vserver rest r := by
  simp [survives_vserver]

/-- Helper: when every reversal polls to success, the undo removes from
the remote state exactly the ranges matching some recorded body of the
added list, in each category. -/
theorem undo_added_success_state (st : RemoteState) (added : List AppliedExt) :
    (undo_added (fun _ => true) st added).1 =
      ⟨st.clusterIPs.filter (fun r => survives_cluster added r),
        st.vservers.map (fun vs =>
          (vs.1, vs.2.filter (fun r => survives_vserver added r)))⟩ := by
  induction added generalizing st with
  | nil => simp [undo_added, survives_cluster, survives_vserver]
  | cons a rest ih =>
    cases a with
    | cluster b =>
      rw [undo_added_cons, ih]
      simp [undo_one, List.filter_filter, survives_cluster_cons_cluster,
        survives_vserver_cons_cluster]
      exact List.filter_congr fun r hr => Bool.and_comm _ _
    | vserver b =>
      rw [undo_added_cons, ih]
      simp [undo_one, List.map_map, Function.comp, List.filter_filter,
        survives_cluster_cons_vserver, survives_vserver_cons_vserver]
      intro vsn vsranges hmem
      exact List.filter_congr fun r hr => Bool.and_comm _ _

/-- Helper: when every reversal polls to failure the state is left as it
was and the reversal of each added entry is still attempted, none
escalating. -/
theorem undo_added_fail (st : RemoteState) (added : List AppliedExt) :
    undo_added (fun _ => false) st added =
      (st, added.flatMap (fun a => (undo_one (fun _ => false) st a).2)) := by
  induction added with
  | nil => simp [undo_added]
  | cons a rest ih =>
    rw [undo_added_cons, undo_one_fail_state]
    rw [ih]
    simp [List.flatMap_cons]

/-- C1 counterexample: with the cluster extension applied before the
vserver extension and cleanup not suppressed, the rollback of a totally
failed add_nodes issues the cluster removal before the vserver removal:
it follows application order, which differs at this input from the
reverse application order the claim requires. -/
theorem add_nodes_rollback_order_counterexample :
    (rollback_addresses (fun _ => true) failure_ctx_example).2 =
      [RemovalOp.removeClusterIPs "cluster2",
        RemovalOp.removeClientIPs "vs1" "vs1_range2"] ∧
    (undo_added (fun _ => true) ext_state added_example.reverse).2 =
      [RemovalOp.removeClientIPs "vs1" "vs1_range2",
        RemovalOp.removeClusterIPs "cluster2"] ∧
    [RemovalOp.removeClusterIPs "cluster2",
        RemovalOp.removeClientIPs "vs1" "vs1_range2"] ≠
      [RemovalOp.removeClientIPs "vs1" "vs1_range2",
        RemovalOp.removeClusterIPs "cluster2"] := by
  decide

/-- C1 (amended): when cleanup is not suppressed and the never-joined
count equals the requested count, the add_nodes failure handler reverses
every recorded cluster and vserver address-range extension, each reversal
polled to completion with failures logged and never escalated, but it
iterates the added list in application order rather than reverse
application order; when every reversal succeeds, exactly the ranges
matching the recorded bodies are removed, so a remote state that was the
pre-call state plus the applied ranges returns to the pre-call state, and
failed reversals leave the state in place while the remaining reversals
are still attempted. -/
theorem add_nodes_rollback_amended :
    (∀ (ok : RemovalOp → Bool) (ctx : FailureCtx),
        ctx.skip_cleanup = false → ctx.unjoined = ctx.count →
        rollback_addresses ok ctx = undo_added ok ctx.st ctx.added) ∧
    (∀ (ok : RemovalOp → Bool) (ctx : FailureCtx),
        ctx.skip_cleanup = true → rollback_addresses ok ctx = (ctx.st, [])) ∧
    (∀ (st : RemoteState) (added : List AppliedExt),
        (undo_added (fun _ => true) st added).1 =
          ⟨st.clusterIPs.filter (fun r => survives_cluster added r),
            st.vservers.map (fun vs =>
              (vs.1, vs.2.filter (fun r => survives_vserver added r)))⟩) ∧
    (∀ (st : RemoteState) (added : List AppliedExt),
        undo_added (fun _ => false) st added =
          (st, added.flatMap (fun a => (undo_one (fun _ => false) st a).2))) ∧
    (undo_added (fun _ => true) ext_state added_example).1 = pre_state := by
  refine ⟨?_, ?_, undo_added_success_state, undo_added_fail, by decide⟩
  · intro ok ctx h1 h2
    simp [rollback_addresses, h1, h2]
  · intro ok ctx h1
    simp [rollback_addresses, h1]

/-- Witness for the amended C1 theorem: the example context triggers the
undo of the recorded extensions. -/
theorem add_nodes_rollback_amended_witness :
    rollback_addresses (fun _ => true) failure_ctx_example =
      undo_added (fun _ => true) ext_state added_example :=
  add_nodes_rollback_amended.1 (fun _ => true) failure_ctx_example rfl rfl

/-- C6 counterexample: a status failure of the service-check phase of
create, with cleanup running and destroy completing, is surfaced to the
caller unwrapped: the handler re-raises it bare instead of wrapping it as
a create failure. -/
theorem create_unwrapped_counterexample :
    create_surfaced
        ⟨none, some (PyErr.status_error "svc"), none, none, none, false, false⟩ =
      some (PyErr.status_error "svc") ∧
    is_create_failure
        (create_surfaced
          ⟨none, some (PyErr.status_error "svc"), none, none, none, false, false⟩) =
      false := by
  decide

/-- C6 (amended): every exception surfaced from add_nodes is wrapped as a
create failure preserving the original cause, whether rollback ran or was
suppressed, and a destroy failure during its rollback is logged without
affecting the surfaced error (though an unguarded failure of the final
join-disable call would); in create only failures of the final
healthcheck and finalization block are wrapped, while service-check and
join-wait failures are re-raised unchanged after the rollback (or
telemetry) completes. -/
theorem exception_wrapping_amended :
    (∀ (o : AddNodesOutcomes) (e : PyErr),
        o.body_err = some e → o.skip_cleanup = true →
        add_nodes_surfaced o = some (PyErr.create_failure e)) ∧
    (∀ (o : AddNodesOutcomes) (e : PyErr),
        o.body_err = some e → o.allow_join_err = none →
        add_nodes_surfaced o = some (PyErr.create_failure e)) ∧
    (∀ (o : AddNodesOutcomes) (d d2 : Option PyErr),
        add_nodes_surfaced { o with destroy_unjoined_err := d } =
          add_nodes_surfaced { o with destroy_unjoined_err := d2 }) ∧
    (∀ (o : CreateOutcomes) (e : PyErr),
        o.create_cluster = none → o.skip_configuration = false →
        o.service_checks = none → o.nodes_join = none → o.finalize = some e →
        o.destroy_err = none →
        create_surfaced o = some (PyErr.create_failure e)) ∧
    (∀ (o : CreateOutcomes) (e : PyErr),
        o.create_cluster = none → o.skip_configuration = false →
        o.service_checks = some e → o.destroy_err = none →
        create_surfaced o = some e) ∧
    (∀ (o : CreateOutcomes) (e : PyErr),
        o.create_cluster = none → o.skip_configuration = false →
        o.service_checks = none → o.nodes_join = some e → o.destroy_err = none →
        create_surfaced o = some e) := by
  refine ⟨?_, ?_, fun o d d2 => rfl, ?_, ?_, ?_⟩
  · intro o e h1 h2
    simp [add_nodes_surfaced, h1, h2]
  · intro o e h1 h2
    simp [add_nodes_surfaced, h1, h2]
  · intro o e h1 h2 h3 h4 h5 h6
    simp [create_surfaced, h1, h2, h3, h4, h5, h6]
  · intro o e h1 h2 h3 h4
    simp [create_surfaced, h1, h2, h3, h4]
  · intro o e h1 h2 h3 h4 h5
    simp [create_surfaced, h1, h2, h3, h4, h5]

/-- Witness for the amended C6 theorem: a join-wait status failure in
add_nodes surfaces wrapped as a create failure even though the rollback
destroy of unjoined nodes itself failed. -/
theorem exception_wrapping_amended_witness :
    add_nodes_surfaced
        ⟨some (PyErr.status_error "join"), false, some (PyErr.service_error "d"), none⟩ =
      some (PyErr.create_failure (PyErr.status_error "join")) :=
  exception_wrapping_amended.2.1
    ⟨some (PyErr.status_error "join"), false, some (PyErr.service_error "d"), none⟩
    (PyErr.status_error "join") rfl rfl

end VFXT
